import Mathlib

/-!
Shallow embedding of the simulation core of the stargame repository
(`src/game/GameEngine.ts`).

Modelling conventions, fixed once here:
* JavaScript numbers are modelled as exact rationals (`ℚ`); the rounding of
  IEEE-754 doubles is not modelled.  Quantities that the program only ever
  treats as integers (lives, score, level, health, damage, multi-shot level)
  are modelled as `ℤ`.
* `Math.random()` is an environment oracle: the engine state carries a list of
  the values the environment will return; reading past the end yields `1/2`.
* `Math.cos`, `Math.sin`, `Math.atan2` and `Math.sqrt` (where the program uses
  the numeric value rather than a comparison) are an abstract `Host` oracle.
  Every comparison of the form `Math.sqrt (dx^2 + dy^2) < r` in the source is
  embedded as `dx^2 + dy^2 < r^2`, which is equivalent for the nonnegative
  thresholds the program compares against (sums of entity sizes and positive
  radius constants).
* Wall-clock time (`performance.now()`, the `requestAnimationFrame` timestamp)
  is the engine field `nowMs`, advanced by the externally chosen per-frame
  delta; `setTimeout` is modelled by an explicit queue of pending timer events
  in the engine state, and firing a due timer is a separate transition.
* The unbounded rejection-sampling loops of `generateAsteroids`,
  `generateEnemies` and `generatePowerUp` are embedded with explicit fuel;
  exhausting the fuel (which models the source looping forever) produces no
  spawn.  All concrete runs studied below accept within the provided fuel.
* `render` draws and mutates no game state; it is omitted from the frame step.
-/

/-- Planar vector, the source's `Vector2D`. -/
structure Vec where
  x : ℚ
  y : ℚ
deriving DecidableEq

/-- Power-up variants, the source's `PowerUpType`. -/
inductive PowerUpType where
  | weapon
  | shield
  | life
  | speed
  | multishot
deriving DecidableEq

/-- Weapon profile plus its fire-rate gate.  The per-variant bullet lifetime
(basic 2 s, advanced 3 s, enemy 3 s) is the only behavioural difference between
the three `fire` closures of the source, so it is carried as a field. -/
structure Weapon where
  fireRate : ℚ
  lastFireTime : ℚ
  bulletSpeed : ℚ
  bulletSize : ℚ
  bulletDamage : ℤ
  bulletLifeTime : ℚ
deriving DecidableEq

structure Bullet where
  position : Vec
  velocity : Vec
  size : ℚ
  rotation : ℚ
  active : Bool
  lifeTime : ℚ
  damage : ℤ
  fromEnemy : Bool
deriving DecidableEq

structure Ship where
  position : Vec
  velocity : Vec
  size : ℚ
  rotation : ℚ
  thrust : ℚ
  maxThrust : ℚ
  rotationSpeed : ℚ
  friction : ℚ
  isThrusting : Bool
  lives : ℤ
  isInvulnerable : Bool
  invulnerabilityTime : ℚ
  canvasWidth : ℚ
  canvasHeight : ℚ
  weapon : Option Weapon
  hasShield : Bool
  shieldTime : ℚ
  multiShotLevel : ℤ
deriving DecidableEq

inductive EnemyBehavior where
  | chase
  | patrol
  | ambush
deriving DecidableEq

/-- Enemy ship.  The render-only `color` string is kept as the sampled index
into the source's fixed three-element colour table. -/
structure Enemy where
  position : Vec
  velocity : Vec
  size : ℚ
  rotation : ℚ
  health : ℤ
  behavior : EnemyBehavior
  weapon : Weapon
  detectionRadius : ℚ
  fireRadius : ℚ
  active : Bool
  rotationSpeed : ℚ
  speed : ℚ
  lastDirectionChange : ℚ
  directionChangeInterval : ℚ
  canvasWidth : ℚ
  canvasHeight : ℚ
  targetPosition : Option Vec
  colorIdx : ℕ
deriving DecidableEq

structure Asteroid where
  position : Vec
  velocity : Vec
  size : ℚ
  rotation : ℚ
  rotationSpeed : ℚ
  canvasWidth : ℚ
  canvasHeight : ℚ
  health : ℤ
deriving DecidableEq

structure PowerUp where
  position : Vec
  velocity : Vec
  size : ℚ
  rotation : ℚ
  type : PowerUpType
  active : Bool
  duration : ℚ
  currentDuration : ℚ
  canvasWidth : ℚ
  canvasHeight : ℚ
deriving DecidableEq

/-- Action of a pending `setTimeout` callback registered by `collectPowerUp`:
revert the ship's weapon to the basic profile, or restore the recorded
original `maxThrust`. -/
inductive TimerAction where
  | weaponRevert
  | speedRevert (orig : ℚ)
deriving DecidableEq

/-- Pending host timer: fires once the wall clock reaches `fireAt` (ms). -/
structure TimerEvt where
  fireAt : ℚ
  action : TimerAction
deriving DecidableEq

inductive ListenerKind where
  | keydown
  | keyup
deriving DecidableEq

/-- The four logical keys the engine polls. -/
inductive GameKey where
  | left
  | right
  | up
  | space
deriving DecidableEq

/-- Pressed state of the polled keys (the source's `keys` map). -/
structure KeyState where
  left : Bool := false
  right : Bool := false
  up : Bool := false
  space : Bool := false
deriving DecidableEq

/-- Oracle for the host math library where the program uses transcendental
values numerically. -/
structure Host where
  cos : ℚ → ℚ
  sin : ℚ → ℚ
  atan2 : ℚ → ℚ → ℚ
  sqrt : ℚ → ℚ

/-- Whole engine state: the `GameEngine` fields plus the modelled host
environment (random tape, pending timers, registered listeners). -/
structure Engine where
  canvasW : ℚ
  canvasH : ℚ
  nowMs : ℚ
  ship : Ship
  asteroids : List Asteroid
  powerUps : List PowerUp
  bullets : List Bullet
  enemies : List Enemy
  keys : KeyState
  score : ℤ
  powerUpSpawnTime : ℚ
  powerUpSpawnInterval : ℚ
  enemySpawnTime : ℚ
  enemySpawnInterval : ℚ
  level : ℤ
  rng : List ℚ
  timers : List TimerEvt
  listeners : List ListenerKind
  host : Host

/-- The IEEE-754 double closest to π, i.e. the exact value of `Math.PI`. -/
def piQ : ℚ := 884279719003555 / 281474976710656

/-- Draw the next `Math.random()` value from the environment tape. -/
def takeRand (e : Engine) : ℚ × Engine :=
  match e.rng with
  | [] => (1/2, e)
  | r :: rs => (r, { e with rng := rs })

/-- Squared-distance collision test: the source's
`Math.sqrt ((ax-bx)^2 + (ay-by)^2) < r` with both sides squared. -/
def distLt (a b : Vec) (r : ℚ) : Bool :=
  decide ((a.x - b.x)^2 + (a.y - b.y)^2 < r^2)

def createBasicWeapon : Weapon :=
  { fireRate := 3, lastFireTime := 0, bulletSpeed := 400, bulletSize := 3
    bulletDamage := 1, bulletLifeTime := 2 }

def createAdvancedWeapon : Weapon :=
  { fireRate := 5, lastFireTime := 0, bulletSpeed := 500, bulletSize := 4
    bulletDamage := 2, bulletLifeTime := 3 }

def createEnemyWeapon : Weapon :=
  { fireRate := 3/2, lastFireTime := 0, bulletSpeed := 350/3, bulletSize := 5
    bulletDamage := 1, bulletLifeTime := 3 }

/-- The source's `Weapon.canFire` at wall-clock time `nowMs`. -/
def Weapon.canFire (w : Weapon) (nowMs : ℚ) : Bool :=
  decide (nowMs - w.lastFireTime ≥ 1000 / w.fireRate)

/-- The source's `Weapon.fire`: stamps `lastFireTime` and returns the new
bullet travelling along `rotation` at `bulletSpeed`. -/
def Weapon.fire (w : Weapon) (H : Host) (nowMs : ℚ) (position : Vec)
    (rotation : ℚ) (fromEnemy : Bool) : Weapon × Bullet :=
  ({ w with lastFireTime := nowMs },
   { position := position
     velocity := ⟨H.cos rotation * w.bulletSpeed, H.sin rotation * w.bulletSpeed⟩
     size := w.bulletSize
     rotation := rotation
     active := true
     lifeTime := w.bulletLifeTime
     damage := w.bulletDamage
     fromEnemy := fromEnemy })

/-- The source's `createShip` for a `w × h` canvas. -/
def createShip (w h : ℚ) : Ship :=
  { position := ⟨w / 2, h / 2⟩
    velocity := ⟨0, 0⟩
    size := 20
    rotation := 0
    thrust := 0
    maxThrust := 200
    rotationSpeed := 3
    friction := 98/100
    isThrusting := false
    lives := 3
    isInvulnerable := false
    invulnerabilityTime := 0
    canvasWidth := w
    canvasHeight := h
    weapon := some createBasicWeapon
    hasShield := false
    shieldTime := 0
    multiShotLevel := 0 }

/-! ## Screen-wrap primitives (§ wrap policy of the source updates) -/

/-- Center-crossing wrap used by `Spaceship.update` and `EnemyShip.update`:
`if (x < 0) x = limit; if (x > limit) x = 0` (sequential tests). -/
def wrapCoord (limit x : ℚ) : ℚ :=
  let x1 := if x < 0 then limit else x
  if x1 > limit then 0 else x1

/-- Bounding-box wrap used by `Asteroid.update`:
`if (x - size > limit) x = -size; if (x + size < 0) x = limit + size`. -/
def wrapBoxOut (limit size x : ℚ) : ℚ :=
  let x1 := if x - size > limit then -size else x
  if x1 + size < 0 then limit + size else x1

/-- Bounding-box wrap used by `PowerUp.update`:
`if (x < -size) x = limit + size; if (x > limit + size) x = -size`. -/
def wrapBoxIn (limit size x : ℚ) : ℚ :=
  let x1 := if x < -size then limit + size else x
  if x1 > limit + size then -size else x1

/-! ## Entity updates -/

/-- Movement part of `Spaceship.update`: integration, friction, thrust ramp,
thrust applied to velocity (everything before the screen wrap). -/
def shipIntegrate (H : Host) (dt : ℚ) (s : Ship) : Ship :=
  let p : Vec := ⟨s.position.x + s.velocity.x * dt, s.position.y + s.velocity.y * dt⟩
  let v : Vec := ⟨s.velocity.x * s.friction, s.velocity.y * s.friction⟩
  let t :=
    if s.isThrusting && decide (s.thrust < s.maxThrust) then
      let t1 := s.thrust + s.maxThrust * dt
      if t1 > s.maxThrust then s.maxThrust else t1
    else if !s.isThrusting then s.thrust * s.friction
    else s.thrust
  let v2 : Vec :=
    if t > 0 then ⟨v.x + H.cos s.rotation * t * dt, v.y + H.sin s.rotation * t * dt⟩ else v
  { s with position := p, velocity := v2, thrust := t }

/-- Invulnerability and shield countdowns at the end of `Spaceship.update`. -/
def shipTimers (dt : ℚ) (s : Ship) : Ship :=
  let s1 :=
    if s.isInvulnerable then
      let it := s.invulnerabilityTime - dt
      if it ≤ 0 then { s with invulnerabilityTime := it, isInvulnerable := false }
      else { s with invulnerabilityTime := it }
    else s
  if s1.hasShield then
    let st := s1.shieldTime - dt
    if st ≤ 0 then { s1 with shieldTime := st, hasShield := false }
    else { s1 with shieldTime := st }
  else s1

/-- The source's `Spaceship.update`. -/
def shipUpdate (H : Host) (dt : ℚ) (s : Ship) : Ship :=
  let s1 := shipIntegrate H dt s
  let s2 := { s1 with position :=
    (⟨wrapCoord s1.canvasWidth s1.position.x, wrapCoord s1.canvasHeight s1.position.y⟩ : Vec) }
  shipTimers dt s2

/-- The source's `Bullet.update` (no wrap; lifetime countdown deactivates). -/
def bulletUpdate (dt : ℚ) (b : Bullet) : Bullet :=
  let p : Vec := ⟨b.position.x + b.velocity.x * dt, b.position.y + b.velocity.y * dt⟩
  let lt := b.lifeTime - dt
  { b with position := p, lifeTime := lt, active := if lt ≤ 0 then false else b.active }

/-- The source's `Asteroid.update`. -/
def asteroidUpdate (dt : ℚ) (a : Asteroid) : Asteroid :=
  let px := a.position.x + a.velocity.x * dt
  let py := a.position.y + a.velocity.y * dt
  { a with
    rotation := a.rotation + a.rotationSpeed * dt
    position := ⟨wrapBoxOut a.canvasWidth a.size px, wrapBoxOut a.canvasHeight a.size py⟩ }

/-- The source's `PowerUp.update`. -/
def powerUpUpdate (dt : ℚ) (pu : PowerUp) : PowerUp :=
  let px := pu.position.x + pu.velocity.x * dt
  let py := pu.position.y + pu.velocity.y * dt
  { pu with position := ⟨wrapBoxIn pu.canvasWidth pu.size px, wrapBoxIn pu.canvasHeight pu.size py⟩ }

/-- Draw the next `Math.random()` value from a raw tape. -/
def randPop : List ℚ → ℚ × List ℚ
  | [] => (1/2, [])
  | r :: rs => (r, rs)

/-- Behaviour switch plus wander jitter of `EnemyShip.update`: returns the new
rotation, (already dt-scaled) velocity, direction-change clock and patrol
target.  Position integration and wrap happen in `enemyUpdate`. -/
def enemySteer (H : Host) (dt : ℚ) (pp : Vec) (en : Enemy) (rng : List ℚ) :
    (ℚ × Vec × ℚ × Option Vec) × List ℚ :=
  let d2 := (pp.x - en.position.x)^2 + (pp.y - en.position.y)^2
  let angleToPlayer := H.atan2 (pp.y - en.position.y) (pp.x - en.position.x)
  let (rot1, vel1, ldc1, tgt1, rng1) :=
    match en.behavior with
    | .chase =>
        if d2 < en.detectionRadius^2 then
          let diff := angleToPlayer - en.rotation
          let nd := H.atan2 (H.sin diff) (H.cos diff)
          let r := en.rotation + nd * en.rotationSpeed * dt
          (r, (⟨H.cos r * en.speed * dt, H.sin r * en.speed * dt⟩ : Vec),
           en.lastDirectionChange, en.targetPosition, rng)
        else
          (en.rotation, (⟨en.velocity.x * (98/100), en.velocity.y * (98/100)⟩ : Vec),
           en.lastDirectionChange, en.targetPosition, rng)
    | .patrol =>
        let ldc := en.lastDirectionChange + dt
        let (ldcA, tgtA, rngA) :=
          if ldc > en.directionChangeInterval || en.targetPosition.isNone then
            let (rx, rA) := randPop rng
            let (ry, rB) := randPop rA
            ((0 : ℚ), some (⟨rx * en.canvasWidth, ry * en.canvasHeight⟩ : Vec), rB)
          else (ldc, en.targetPosition, rng)
        let tgtB := if d2 < en.detectionRadius^2 then some pp else tgtA
        match tgtB with
        | none => (en.rotation, en.velocity, ldcA, none, rngA)
        | some t =>
            let angleToTarget := H.atan2 (t.y - en.position.y) (t.x - en.position.x)
            let diff := angleToTarget - en.rotation
            let nd := H.atan2 (H.sin diff) (H.cos diff)
            let r := en.rotation + nd * en.rotationSpeed * dt
            (r, (⟨H.cos r * en.speed * dt, H.sin r * en.speed * dt⟩ : Vec), ldcA, some t, rngA)
    | .ambush =>
        if d2 < en.detectionRadius^2 then
          let diff := angleToPlayer - en.rotation
          let nd := H.atan2 (H.sin diff) (H.cos diff)
          let r := en.rotation + nd * en.rotationSpeed * (12/10) * dt
          let dist := H.sqrt d2
          let ambushSpeed :=
            min (en.speed * (3/2)) (en.speed * (1 + (en.detectionRadius - dist) / en.detectionRadius))
          (r, (⟨H.cos r * ambushSpeed * dt, H.sin r * ambushSpeed * dt⟩ : Vec),
           en.lastDirectionChange, en.targetPosition, rng)
        else
          (en.rotation, (⟨en.velocity.x * (9/10), en.velocity.y * (9/10)⟩ : Vec),
           en.lastDirectionChange, en.targetPosition, rng)
  let (wr, rng2) := randPop rng1
  let rot2 := rot1 + (wr - 1/2) * (2/10) * dt
  ((rot2, vel1, ldc1, tgt1), rng2)

/-- The source's `EnemyShip.update`: steer, add the per-frame displacement
(enemy velocity is already scaled by dt), wrap at center-crossing. -/
def enemyUpdate (H : Host) (dt : ℚ) (pp : Vec) (en : Enemy) (rng : List ℚ) :
    Enemy × List ℚ :=
  let ((rot, vel, ldc, tgt), rng1) := enemySteer H dt pp en rng
  let px := en.position.x + vel.x
  let py := en.position.y + vel.y
  ({ en with
      rotation := rot
      velocity := vel
      lastDirectionChange := ldc
      targetPosition := tgt
      position := ⟨wrapCoord en.canvasWidth px, wrapCoord en.canvasHeight py⟩ }, rng1)

/-! ## Spawn policies -/

/-- Rejection sampling shared by `generateAsteroids` and `generateEnemies`:
draw uniform canvas positions until one is at least `safe` away from the ship.
The source loops without bound; `none` models its non-termination. -/
def sampleAwayFromShip (safe : ℚ) : ℕ → Engine → Option Vec × Engine
  | 0, e => (none, e)
  | n + 1, e =>
    let (rx, e1) := takeRand e
    let (ry, e2) := takeRand e1
    let p : Vec := ⟨rx * e2.canvasW, ry * e2.canvasH⟩
    if distLt p e2.ship.position safe then sampleAwayFromShip safe n e2
    else (some p, e2)

/-- One iteration of the source's `generateAsteroids` loop body. -/
def generateAsteroidOne (fuel : ℕ) (e : Engine) : Engine :=
  match sampleAwayFromShip 100 fuel e with
  | (none, e1) => e1
  | (some p, e1) =>
    let (rvx, e2) := takeRand e1
    let (rvy, e3) := takeRand e2
    let (rsz, e4) := takeRand e3
    let (rrot, e5) := takeRand e4
    let (rrs, e6) := takeRand e5
    let a : Asteroid :=
      { position := p
        velocity := ⟨(rvx - 1/2) * 50, (rvy - 1/2) * 50⟩
        size := 20 + rsz * 20
        rotation := rrot * piQ * 2
        rotationSpeed := (rrs - 1/2) * 1
        canvasWidth := e6.canvasW
        canvasHeight := e6.canvasH
        health := 2 }
    { e6 with asteroids := e6.asteroids ++ [a] }

/-- The source's `generateAsteroids(count)`. -/
def generateAsteroids : ℕ → ℕ → Engine → Engine
  | 0, _, e => e
  | c + 1, fuel, e => generateAsteroids c fuel (generateAsteroidOne fuel e)

def behaviorsTable : List EnemyBehavior := [.chase, .patrol, .ambush]

/-- One iteration of the source's `generateEnemies` loop body. -/
def generateEnemyOne (fuel : ℕ) (e : Engine) : Engine :=
  match sampleAwayFromShip 200 fuel e with
  | (none, e1) => e1
  | (some p, e1) =>
    let (rb, e2) := takeRand e1
    let (rc, e3) := takeRand e2
    let (rrot, e4) := takeRand e3
    let (rrs, e5) := takeRand e4
    let (rsp, e6) := takeRand e5
    let (rdci, e7) := takeRand e6
    let en : Enemy :=
      { position := p
        velocity := ⟨0, 0⟩
        size := 18
        rotation := rrot * piQ * 2
        health := 2
        behavior := behaviorsTable.getD (Int.toNat ⌊rb * 3⌋) .chase
        weapon := createEnemyWeapon
        detectionRadius := 300
        fireRadius := 250
        active := true
        rotationSpeed := 1 + rrs * (8/10)
        speed := 50 + rsp * 30
        lastDirectionChange := 0
        directionChangeInterval := 2 + rdci * 3
        canvasWidth := e7.canvasW
        canvasHeight := e7.canvasH
        targetPosition := none
        colorIdx := Int.toNat ⌊rc * 3⌋ }
    { e7 with enemies := e7.enemies ++ [en] }

/-- The source's `generateEnemies(count)`. -/
def generateEnemies : ℕ → ℕ → Engine → Engine
  | 0, _, e => e
  | c + 1, fuel, e => generateEnemies c fuel (generateEnemyOne fuel e)

def powerUpWeightTable : List (PowerUpType × ℚ) :=
  [(.weapon, 30), (.shield, 30), (.life, 15), (.speed, 20), (.multishot, 5)]

/-- The weighted-selection loop of `generatePowerUp`: subtract the weights in
order and stop at the first nonpositive remainder; the default is WEAPON. -/
def pickWeighted : ℚ → List (PowerUpType × ℚ) → PowerUpType
  | _, [] => .weapon
  | v, (t, w) :: rest => if v - w ≤ 0 then t else pickWeighted (v - w) rest

/-- The source's `generatePowerUp`.  On rejection (closer than 100 to the
ship) the source calls itself recursively, re-drawing the type as well. -/
def generatePowerUp : ℕ → Engine → Engine
  | 0, e => e
  | fuel + 1, e =>
    let (rt, e1) := takeRand e
    let totalWeight := (powerUpWeightTable.map Prod.snd).sum
    let selectedType := pickWeighted (rt * totalWeight) powerUpWeightTable
    let (rx, e2) := takeRand e1
    let (ry, e3) := takeRand e2
    let p : Vec := ⟨rx * e3.canvasW, ry * e3.canvasH⟩
    if distLt p e3.ship.position 100 then generatePowerUp fuel e3
    else
      let (rvx, e4) := takeRand e3
      let (rvy, e5) := takeRand e4
      let pu : PowerUp :=
        { position := p
          velocity := ⟨(rvx - 1/2) * 20, (rvy - 1/2) * 20⟩
          size := 15
          rotation := 0
          type := selectedType
          active := true
          duration := 10
          currentDuration := 0
          canvasWidth := e5.canvasW
          canvasHeight := e5.canvasH }
      { e5 with powerUps := e5.powerUps ++ [pu] }

/-! ## Firing -/

/-- One player shot at `angle`: bullet spawned at the ship tip along `angle`,
exactly as both the primary and the spread shots of `fireWeapon` do. -/
def shipBulletAt (H : Host) (w : Weapon) (nowMs : ℚ) (s : Ship) (angle : ℚ) :
    Weapon × Bullet :=
  w.fire H nowMs
    ⟨s.position.x + H.cos angle * s.size, s.position.y + H.sin angle * s.size⟩
    angle false

/-- The spread-angle lookup switch of `fireWeapon`, keyed by multi-shot
level (default branch for every level above 4). -/
def multiShotAngles (rot : ℚ) (level : ℤ) : List ℚ :=
  if level = 1 then [rot + piQ / 12]
  else if level = 2 then [rot - piQ / 12, rot + piQ / 12]
  else if level = 3 then [rot - piQ / 10, rot + piQ / 10, rot - piQ / 5]
  else if level = 4 then [rot - piQ / 12, rot + piQ / 12, rot - piQ / 6, rot + piQ / 6]
  else [rot - piQ / 12, rot + piQ / 12, rot - piQ / 6, rot + piQ / 6,
        rot - piQ / 4, rot + piQ / 4]

/-- The source's `fireWeapon`: cooldown gate, primary shot, then the spread
shots when `multiShotLevel > 0`. -/
def fireWeapon (e : Engine) : Engine :=
  match e.ship.weapon with
  | none => e
  | some w =>
    if w.canFire e.nowMs then
      let first := shipBulletAt e.host w e.nowMs e.ship e.ship.rotation
      let start : Weapon × List Bullet := (first.1, [first.2])
      let fired :=
        if e.ship.multiShotLevel > 0 then
          (multiShotAngles e.ship.rotation e.ship.multiShotLevel).foldl
            (fun (acc : Weapon × List Bullet) angle =>
              let fb := shipBulletAt e.host acc.1 e.nowMs e.ship angle
              (fb.1, acc.2 ++ [fb.2])) start
        else start
      { e with
          ship := { e.ship with weapon := some fired.1 }
          bullets := e.bullets ++ fired.2 }
    else e

/-- The source's `enemyFireWeapon`: cooldown, facing-angle gate, random
inaccuracy, then fire toward the enemy's heading. -/
def enemyFireWeapon (en : Enemy) (e : Engine) : Enemy × Engine :=
  if en.weapon.canFire e.nowMs then
    let angleToPlayer :=
      e.host.atan2 (e.ship.position.y - en.position.y) (e.ship.position.x - en.position.x)
    let angleDiff := angleToPlayer - en.rotation
    let normalized := e.host.atan2 (e.host.sin angleDiff) (e.host.cos angleDiff)
    if |normalized| < piQ / 6 then
      let (r, e1) := takeRand e
      let firingAngle := en.rotation + (r - 1/2) * (3/10)
      let fb := en.weapon.fire e1.host e1.nowMs
        ⟨en.position.x + e1.host.cos firingAngle * en.size,
         en.position.y + e1.host.sin firingAngle * en.size⟩
        firingAngle true
      ({ en with weapon := fb.1 }, { e1 with bullets := e1.bullets ++ [fb.2] })
    else (en, e)
  else (en, e)

/-! ## Collision and damage resolution -/

/-- The source's `handleShipCollision`: lose a life, start the 3 s grace
period, reset the ship to the canvas center. -/
def handleShipCollision (e : Engine) : Engine :=
  { e with ship := { e.ship with
      lives := e.ship.lives - 1
      isInvulnerable := true
      invulnerabilityTime := 3
      position := ⟨e.canvasW / 2, e.canvasH / 2⟩
      velocity := ⟨0, 0⟩
      thrust := 0 } }

/-- Ship↔asteroid and ship↔enemy resolution of `checkCollisions`.  The
invulnerable/shield guard is tested once, before both loops; each loop stops
at its first hit; the enemy loop sees the ship state left by the asteroid
loop (in particular the reset position). -/
def shipBodyCollisionPhase (e : Engine) : Engine :=
  if !e.ship.isInvulnerable && !e.ship.hasShield then
    let e1 :=
      if e.asteroids.any (fun a => distLt a.position e.ship.position (e.ship.size + a.size))
      then handleShipCollision e else e
    if e1.enemies.any (fun en => distLt en.position e1.ship.position (e1.ship.size + en.size))
    then handleShipCollision e1 else e1
  else e

def deactivate (b : Bullet) : Bullet := { b with active := false }

/-- Body of the player-bullet↔asteroid loop for the bullet at index `i`. -/
def bulletAsteroidStep (sf : ℕ) (i : ℕ) (e : Engine) : Engine :=
  match e.bullets[i]? with
  | none => e
  | some b =>
    if !b.active || b.fromEnemy then e
    else
      match e.asteroids.findIdx? (fun a => distLt a.position b.position (b.size + a.size)) with
      | none => e
      | some j =>
        match e.asteroids[j]? with
        | none => e
        | some a =>
          let e1 := { e with bullets := e.bullets.set i (deactivate b) }
          let newHealth := a.health - b.damage
          if newHealth ≤ 0 then
            let e2 := { e1 with asteroids := e1.asteroids.eraseIdx j, score := e1.score + 100 }
            let (r, e3) := takeRand e2
            let e4 := if r < 2/10 then generatePowerUp sf e3 else e3
            if e4.asteroids.length < 3 then generateAsteroids 2 sf e4 else e4
          else
            { e1 with asteroids := e1.asteroids.set j { a with health := newHealth } }

/-- Index loop over the bullet list; the list's length is invariant during
both bullet phases (bullets are only deactivated in place), so the initial
length serves as fuel. -/
def bulletLoop (step : ℕ → Engine → Engine) : ℕ → ℕ → Engine → Engine
  | 0, _, e => e
  | f + 1, i, e => if i < e.bullets.length then bulletLoop step f (i + 1) (step i e) else e

def bulletAsteroidPhase (sf : ℕ) (e : Engine) : Engine :=
  bulletLoop (bulletAsteroidStep sf) e.bullets.length 0 e

/-- Body of the player-bullet↔enemy loop for the bullet at index `i`. -/
def bulletEnemyStep (sf : ℕ) (i : ℕ) (e : Engine) : Engine :=
  match e.bullets[i]? with
  | none => e
  | some b =>
    if !b.active || b.fromEnemy then e
    else
      match e.enemies.findIdx? (fun en => distLt en.position b.position (b.size + en.size)) with
      | none => e
      | some j =>
        match e.enemies[j]? with
        | none => e
        | some en =>
          let e1 := { e with bullets := e.bullets.set i (deactivate b) }
          let newHealth := en.health - b.damage
          if newHealth ≤ 0 then
            let e2 := { e1 with enemies := e1.enemies.eraseIdx j, score := e1.score + 250 }
            let (r, e3) := takeRand e2
            let e4 := if r < 3/10 then generatePowerUp sf e3 else e3
            if e4.score ≥ e4.level * 1000 then
              let e5 := { e4 with level := e4.level + 1 }
              generateEnemies (Int.toNat e5.level) sf e5
            else e4
          else
            { e1 with enemies := e1.enemies.set j { en with health := newHealth } }

def bulletEnemyPhase (sf : ℕ) (e : Engine) : Engine :=
  bulletLoop (bulletEnemyStep sf) e.bullets.length 0 e

/-- Enemy-bullet↔ship resolution: skipped while invulnerable, stops at the
first hit; a shield absorbs the hit by one flat unit of shield time. -/
def enemyBulletShipPhase (e : Engine) : Engine :=
  if !e.ship.isInvulnerable then
    match e.bullets.findIdx?
        (fun b => b.active && b.fromEnemy &&
          distLt e.ship.position b.position (e.ship.size + b.size)) with
    | none => e
    | some i =>
      match e.bullets[i]? with
      | none => e
      | some b =>
        let e1 := { e with bullets := e.bullets.set i (deactivate b) }
        if e1.ship.hasShield then
          let st := e1.ship.shieldTime - 1
          if st ≤ 0 then { e1 with ship := { e1.ship with shieldTime := st, hasShield := false } }
          else { e1 with ship := { e1.ship with shieldTime := st } }
        else handleShipCollision e1
  else e

/-- The source's `collectPowerUp` applied to the power-up at index `j` of the
engine's list: apply the typed effect, then deactivate the power-up. -/
def collectPowerUp (e : Engine) (j : ℕ) : Engine :=
  match e.powerUps[j]? with
  | none => e
  | some pu =>
    let e1 :=
      match pu.type with
      | .weapon =>
          { e with
              ship := { e.ship with weapon := some createAdvancedWeapon }
              timers := e.timers ++ [TimerEvt.mk (e.nowMs + pu.duration * 1000) .weaponRevert] }
      | .shield =>
          { e with ship := { e.ship with hasShield := true, shieldTime := pu.duration } }
      | .life =>
          { e with ship := { e.ship with lives := e.ship.lives + 1 } }
      | .speed =>
          { e with
              ship := { e.ship with maxThrust := e.ship.maxThrust * (3/2) }
              timers := e.timers ++
                [TimerEvt.mk (e.nowMs + pu.duration * 1000) (.speedRevert e.ship.maxThrust)] }
      | .multishot =>
          if e.ship.multiShotLevel < 5 then
            { e with
                ship := { e.ship with multiShotLevel := e.ship.multiShotLevel + 1 }
                score := e.score + 50 * (e.ship.multiShotLevel + 1) }
          else e
    { e1 with powerUps := e1.powerUps.set j { pu with active := false } }

/-- Ship↔power-up resolution: collect the first active overlapping power-up. -/
def shipPowerUpPhase (e : Engine) : Engine :=
  match e.powerUps.findIdx?
      (fun pu => pu.active && distLt pu.position e.ship.position (e.ship.size + pu.size)) with
  | none => e
  | some j => collectPowerUp e j

/-- The source's `checkCollisions`: the five resolution phases in order. -/
def checkCollisions (sf : ℕ) (e : Engine) : Engine :=
  shipPowerUpPhase (enemyBulletShipPhase
    (bulletEnemyPhase sf (bulletAsteroidPhase sf (shipBodyCollisionPhase e))))

/-! ## Frame pipeline -/

def cleanupInactiveObjects (e : Engine) : Engine :=
  { e with
      bullets := e.bullets.filter (·.active)
      powerUps := e.powerUps.filter (·.active)
      enemies := e.enemies.filter (·.active) }

def updatePowerUpSpawn (sf : ℕ) (dt : ℚ) (e : Engine) : Engine :=
  let t := e.powerUpSpawnTime + dt
  if t ≥ e.powerUpSpawnInterval then
    let e1 := { e with powerUpSpawnTime := 0 }
    if e1.powerUps.length < 3 then generatePowerUp sf e1 else e1
  else { e with powerUpSpawnTime := t }

def updateEnemySpawn (sf : ℕ) (dt : ℚ) (e : Engine) : Engine :=
  let t := e.enemySpawnTime + dt
  let adjustedInterval := max (e.enemySpawnInterval - (e.level : ℚ) * (1/2)) 5
  if t ≥ adjustedInterval then
    let e1 := { e with enemySpawnTime := 0 }
    if (e1.enemies.length : ℤ) < 5 + e1.level then generateEnemies 1 sf e1 else e1
  else { e with enemySpawnTime := t }

def processInput (dt : ℚ) (e : Engine) : Engine :=
  let rot1 := if e.keys.left then e.ship.rotation - e.ship.rotationSpeed * dt
              else e.ship.rotation
  let rot2 := if e.keys.right then rot1 + e.ship.rotationSpeed * dt else rot1
  let e1 := { e with ship := { e.ship with rotation := rot2, isThrusting := e.keys.up } }
  if e1.keys.space && e1.ship.weapon.isSome then fireWeapon e1 else e1

/-- One pass of the engine's `update`: ship, asteroids, bullets, power-ups,
then each enemy in turn (update plus the in-range random fire attempt, which
may append a bullet and restamp that enemy's weapon). -/
def updateEnemyOne (dt : ℚ) (e : Engine) (en : Enemy) : Engine :=
  let upd := enemyUpdate e.host dt e.ship.position en e.rng
  let e1 := { e with rng := upd.2 }
  let en1 := upd.1
  let d2 := (e1.ship.position.x - en1.position.x)^2 + (e1.ship.position.y - en1.position.y)^2
  if d2 < en1.fireRadius^2 then
    let (r, e2) := takeRand e1
    if r < 2/100 then
      let fired := enemyFireWeapon en1 e2
      { fired.2 with enemies := fired.2.enemies ++ [fired.1] }
    else { e2 with enemies := e2.enemies ++ [en1] }
  else { e1 with enemies := e1.enemies ++ [en1] }

def updateAll (dt : ℚ) (e : Engine) : Engine :=
  let e1 := { e with ship := shipUpdate e.host dt e.ship }
  let e2 := { e1 with asteroids := e1.asteroids.map (asteroidUpdate dt) }
  let e3 := { e2 with bullets := e2.bullets.map (bulletUpdate dt) }
  let e4 := { e3 with powerUps := e3.powerUps.map (powerUpUpdate dt) }
  e4.enemies.foldl (updateEnemyOne dt) { e4 with enemies := [] }

/-- One `gameLoop` iteration with externally measured frame delta `dt`
(seconds): advance the wall clock, process input, update, resolve
collisions, clean up, run the two timed spawners.  Rendering reads state and
mutates nothing. -/
def frameStep (sf : ℕ) (dt : ℚ) (e : Engine) : Engine :=
  let e0 := { e with nowMs := e.nowMs + dt * 1000 }
  updateEnemySpawn sf dt (updatePowerUpSpawn sf dt
    (cleanupInactiveObjects (checkCollisions sf (updateAll dt (processInput dt e0)))))

/-! ## Construction and external control surface -/

/-- The `GameEngine` constructor: ship at center, 5 asteroids, 1 enemy,
keydown/keyup listeners registered. -/
def engineInit (sf : ℕ) (w h : ℚ) (rng : List ℚ) (H : Host) : Engine :=
  let base : Engine :=
    { canvasW := w, canvasH := h, nowMs := 0, ship := createShip w h
      asteroids := [], powerUps := [], bullets := [], enemies := []
      keys := {}, score := 0, powerUpSpawnTime := 0, powerUpSpawnInterval := 10
      enemySpawnTime := 0, enemySpawnInterval := 15, level := 1
      rng := rng, timers := [], listeners := [], host := H }
  let e1 := generateAsteroids 5 sf base
  let e2 := generateEnemies 1 sf e1
  { e2 with listeners := [.keydown, .keyup] }

def setKey (k : GameKey) (v : Bool) (ks : KeyState) : KeyState :=
  match k with
  | .left => { ks with left := v }
  | .right => { ks with right := v }
  | .up => { ks with up := v }
  | .space => { ks with space := v }

/-- The `handleKeyDown` listener: records the key and fires on space.  It
only runs while the keydown listener is registered. -/
def handleKeyDownEvt (k : GameKey) (e : Engine) : Engine :=
  if e.listeners.contains .keydown then
    let e1 := { e with keys := setKey k true e.keys }
    if k = .space && e1.ship.weapon.isSome then fireWeapon e1 else e1
  else e

/-- The `handleKeyUp` listener. -/
def handleKeyUpEvt (k : GameKey) (e : Engine) : Engine :=
  if e.listeners.contains .keyup then { e with keys := setKey k false e.keys } else e

/-- The source's `resize`: stores the new canvas size and rewrites the wrap
bounds of the ship, the asteroids and the enemies (the power-up list is not
touched by the source). -/
def resize (e : Engine) (w h : ℚ) : Engine :=
  { e with
      canvasW := w
      canvasH := h
      ship := { e.ship with canvasWidth := w, canvasHeight := h }
      asteroids := e.asteroids.map (fun a => { a with canvasWidth := w, canvasHeight := h })
      enemies := e.enemies.map (fun en => { en with canvasWidth := w, canvasHeight := h }) }

/-- The source's `dispose`: unregisters the two key listeners (and nothing
else — pending timers and the animation-frame chain are untouched). -/
def dispose (e : Engine) : Engine := { e with listeners := [] }

/-- The source's `isGameOver`: `lives <= 0`. -/
def isGameOver (e : Engine) : Bool := decide (e.ship.lives ≤ 0)

def getScore (e : Engine) : ℤ := e.score

/-- The host event loop firing the pending `setTimeout` callback at index
`j`: the wall clock has reached its deadline, the callback runs against the
engine's current ship, and the timer is consumed. -/
def fireTimer (j : ℕ) (e : Engine) : Engine :=
  match e.timers[j]? with
  | none => e
  | some t =>
    let e1 := { e with timers := e.timers.eraseIdx j, nowMs := max e.nowMs t.fireAt }
    match t.action with
    | .weaponRevert => { e1 with ship := { e1.ship with weapon := some createBasicWeapon } }
    | .speedRevert orig => { e1 with ship := { e1.ship with maxThrust := orig } }

/-- States the engine can be in: freshly constructed, or the image of a
reachable state under a frame step (with nonnegative measured delta), a key
event, a due timer callback, `resize` or `dispose`. -/
inductive Reachable : Engine → Prop where
  | init (sf : ℕ) (w h : ℚ) (rng : List ℚ) (H : Host) : Reachable (engineInit sf w h rng H)
  | frame (e : Engine) (sf : ℕ) (dt : ℚ) (hdt : 0 ≤ dt) :
      Reachable e → Reachable (frameStep sf dt e)
  | keydown (e : Engine) (k : GameKey) : Reachable e → Reachable (handleKeyDownEvt k e)
  | keyup (e : Engine) (k : GameKey) : Reachable e → Reachable (handleKeyUpEvt k e)
  | timer (e : Engine) (j : ℕ) : Reachable e → Reachable (fireTimer j e)
  | doResize (e : Engine) (w h : ℚ) : Reachable e → Reachable (resize e w h)
  | doDispose (e : Engine) : Reachable e → Reachable (dispose e)

/-! ## Concrete environments and test fixtures

The fixtures below are concrete instantiations of the model used to settle
the claims: a concrete host-math oracle, random tapes, and engine states. -/

/-- A concrete host-math oracle.  The runs below never branch on an oracle
value (the traced enemies stay outside detection and fire radius, comparisons
are squared), so any values serve. -/
def traceHost : Host := ⟨fun _ => 1, fun _ => 0, fun _ _ => 0, fun _ => 0⟩

/-- Bare engine around a fresh ship, with no entities and a given random
tape: the common base of the crafted test states. -/
def mkBareEngine (w h : ℚ) (rng : List ℚ) : Engine :=
  { canvasW := w, canvasH := h, nowMs := 0, ship := createShip w h
    asteroids := [], powerUps := [], bullets := [], enemies := []
    keys := {}, score := 0, powerUpSpawnTime := 0, powerUpSpawnInterval := 10
    enemySpawnTime := 0, enemySpawnInterval := 15, level := 1
    rng := rng, timers := [], listeners := [.keydown, .keyup], host := traceHost }

/-- Random tape for the game-over run: it spawns asteroid 1 at `(400, 450)`
drifting up at 5 units/s toward the ship, the other four asteroids and all
enemies far away and static, and keeps every later spawn away from the ship. -/
def c1Rng : List ℚ :=
  [1/2, 3/4, 1/2, 2/5, 0, 0, 1/2] ++
  [7/8, 1/6, 1/2, 1/2, 0, 0, 1/2] ++
  [7/8, 1/6, 1/2, 1/2, 0, 0, 1/2] ++
  [7/8, 1/6, 1/2, 1/2, 0, 0, 1/2] ++
  [7/8, 1/6, 1/2, 1/2, 0, 0, 1/2] ++
  [1/16, 1/12, 0, 0, 0, 0, 0, 0] ++
  [1/2] ++ [1/10, 1/8, 5/6, 1/2, 1/2] ++ [1/16, 11/12, 0, 0, 0, 0, 0, 0] ++
  [1/2, 1/2] ++
  [1/2, 1/2] ++
  [1/2, 1/2] ++ [1/10, 1/8, 5/6, 1/2, 1/2]

/-- Freshly constructed engine on an 800 × 600 canvas with the above tape. -/
def c1E0 : Engine := engineInit 16 800 600 c1Rng traceHost

/-- Frame 1: the browser tab stalls for 23 s, the asteroid drifts onto the
ship — first hit. -/
def c1E1 : Engine := frameStep 16 23 c1E0

/-- Frames 2–4: 4 s each; the 3 s grace period expires inside the asteroid's
overlap window each time, so the ship is hit every frame. -/
def c1E2 : Engine := frameStep 16 4 c1E1

def c1E3 : Engine := frameStep 16 4 c1E2

def c1E4 : Engine := frameStep 16 4 c1E3

/-- Claim C1 as stated: on every reachable frame, lives are nonnegative and
the game-over predicate holds exactly at zero lives. -/
def ClaimC1 : Prop :=
  ∀ e : Engine, Reachable e →
    0 ≤ e.ship.lives ∧ (isGameOver e = true ↔ e.ship.lives = 0)

/-- A WEAPON power-up sitting on the ship's spawn point. -/
def weaponPowerUpAtCenter : PowerUp :=
  { position := ⟨400, 300⟩, velocity := ⟨0, 0⟩, size := 15, rotation := 0
    type := .weapon, active := true, duration := 10, currentDuration := 0
    canvasWidth := 800, canvasHeight := 600 }

/-- Start state of the double-pickup run: two WEAPON power-ups on the ship. -/
def wEngine0 : Engine :=
  { mkBareEngine 800 600 [] with powerUps := [weaponPowerUpAtCenter, weaponPowerUpAtCenter] }

/-- Frame at t = 0 s: collects the first WEAPON power-up. -/
def wEngine1 : Engine := frameStep 8 0 wEngine0

/-- Frame at t = 5 s: collects the second WEAPON power-up. -/
def wEngine2 : Engine := frameStep 8 5 wEngine1

/-- The earliest pending timeout fires (wall clock 10 s). -/
def wEngine3 : Engine := fireTimer 0 wEngine2

/-- The remaining timeout fires (wall clock 15 s). -/
def wEngine4 : Engine := fireTimer 0 wEngine3

/-- The double-pickup state after `dispose()`. -/
def disposedEngine : Engine := dispose wEngine2

/-- Asteroid overlapping the ship center in the double-hit state. -/
def c4Asteroid : Asteroid :=
  { position := ⟨400, 300⟩, velocity := ⟨0, 0⟩, size := 20, rotation := 0
    rotationSpeed := 0, canvasWidth := 800, canvasHeight := 600, health := 2 }

/-- Enemy overlapping the canvas center in the double-hit state. -/
def c4Enemy : Enemy :=
  { position := ⟨410, 300⟩, velocity := ⟨0, 0⟩, size := 18, rotation := 0
    health := 2, behavior := .chase, weapon := createEnemyWeapon
    detectionRadius := 300, fireRadius := 250, active := true
    rotationSpeed := 1, speed := 50, lastDirectionChange := 0
    directionChangeInterval := 2, canvasWidth := 800, canvasHeight := 600
    targetPosition := none, colorIdx := 0 }

/-- State in which the ship overlaps one asteroid and one enemy at once. -/
def c4Engine : Engine :=
  { mkBareEngine 800 600 [] with asteroids := [c4Asteroid], enemies := [c4Enemy] }

/-- Claim C4 as stated: when the vulnerable ship overlaps both an asteroid
and an enemy in one frame, body-collision resolution costs at most one life. -/
def ClaimC4 : Prop :=
  ∀ e : Engine,
    e.ship.isInvulnerable = false → e.ship.hasShield = false →
    (e.asteroids.any fun a => distLt a.position e.ship.position (e.ship.size + a.size)) = true →
    (e.enemies.any fun en => distLt en.position e.ship.position (e.ship.size + en.size)) = true →
    e.ship.lives - 1 ≤ (shipBodyCollisionPhase e).ship.lives

/-- State with one entity of each wrap-sensitive kind, all carrying the
800 × 600 bounds they were spawned with. -/
def c5Engine : Engine :=
  { mkBareEngine 800 600 [] with
      asteroids := [c4Asteroid]
      enemies := [c4Enemy]
      powerUps := [weaponPowerUpAtCenter] }

/-- Claim C5 as stated: after `resize(w, h)` every wrap-sensitive entity —
ship, asteroids, enemies and power-ups — carries the new bounds. -/
def ClaimC5 : Prop :=
  ∀ (e : Engine) (w h : ℚ),
    (resize e w h).ship.canvasWidth = w ∧ (resize e w h).ship.canvasHeight = h ∧
    (∀ a ∈ (resize e w h).asteroids, a.canvasWidth = w ∧ a.canvasHeight = h) ∧
    (∀ en ∈ (resize e w h).enemies, en.canvasWidth = w ∧ en.canvasHeight = h) ∧
    (∀ pu ∈ (resize e w h).powerUps, pu.canvasWidth = w ∧ pu.canvasHeight = h)

/-- The asteroid from `c5Engine` after `resize` to 1024 × 768. -/
def c5AsteroidResized : Asteroid :=
  { c4Asteroid with canvasWidth := 1024, canvasHeight := 768 }

/-- Membership of a point in the visible canvas box. -/
def inCanvas (w h : ℚ) (p : Vec) : Prop :=
  0 ≤ p.x ∧ p.x ≤ w ∧ 0 ≤ p.y ∧ p.y ≤ h

/-- Claim C6 as stated: every entity update leaves the position inside
`[0, canvasWidth] × [0, canvasHeight]` after the wrap stage. -/
def ClaimC6 : Prop :=
  (∀ (H : Host) (dt : ℚ) (s : Ship), 0 ≤ s.canvasWidth → 0 ≤ s.canvasHeight → 0 ≤ s.size →
      inCanvas s.canvasWidth s.canvasHeight (shipUpdate H dt s).position) ∧
  (∀ (H : Host) (dt : ℚ) (pp : Vec) (en : Enemy) (rng : List ℚ),
      0 ≤ en.canvasWidth → 0 ≤ en.canvasHeight → 0 ≤ en.size →
      inCanvas en.canvasWidth en.canvasHeight (enemyUpdate H dt pp en rng).1.position) ∧
  (∀ (dt : ℚ) (a : Asteroid), 0 ≤ a.canvasWidth → 0 ≤ a.canvasHeight → 0 ≤ a.size →
      inCanvas a.canvasWidth a.canvasHeight (asteroidUpdate dt a).position) ∧
  (∀ (dt : ℚ) (pu : PowerUp), 0 ≤ pu.canvasWidth → 0 ≤ pu.canvasHeight → 0 ≤ pu.size →
      inCanvas pu.canvasWidth pu.canvasHeight (powerUpUpdate dt pu).position)

/-- Asteroid just past the right edge: its next wrap lands at `x = -size`. -/
def c6Asteroid : Asteroid :=
  { position := ⟨900, 300⟩, velocity := ⟨0, 0⟩, size := 20, rotation := 0
    rotationSpeed := 0, canvasWidth := 800, canvasHeight := 600, health := 2 }

/-- A live basic-weapon bullet at the canvas center. -/
def c7Bullet : Bullet :=
  { position := ⟨400, 300⟩, velocity := ⟨400, 0⟩, size := 3, rotation := 0
    active := true, lifeTime := 2, damage := 1, fromEnemy := false }

/-- An advanced-weapon bullet (damage 2) at the canvas center. -/
def c7BulletAdvanced : Bullet :=
  { c7Bullet with size := 4, lifeTime := 3, damage := 2 }

/-- Fresh-health asteroid overlapped by the bullets above; its distant ship
keeps the other collision phases quiet. -/
def c7AstEngine : Engine :=
  { mkBareEngine 800 600 [] with
      ship := { createShip 800 600 with position := ⟨100, 100⟩ }
      bullets := [c7Bullet]
      asteroids := [{ c4Asteroid with position := ⟨402, 300⟩ }] }

/-- Enemy with fresh health overlapped by an advanced bullet. -/
def c7EnemyEngine : Engine :=
  { mkBareEngine 800 600 [] with
      ship := { createShip 800 600 with position := ⟨100, 100⟩ }
      bullets := [c7BulletAdvanced]
      enemies := [{ c4Enemy with position := ⟨405, 300⟩ }] }

/-- Engine about to fire at multi-shot level 2 (cooldown long elapsed). -/
def c8Engine : Engine :=
  { mkBareEngine 800 600 [] with
      nowMs := 1000
      ship := { createShip 800 600 with multiShotLevel := 2 } }

/-- Engine whose 20 × 20 canvas lies entirely inside the 100-unit safe
radius around the ship at its center: every spawn sample is rejected. -/
def smallEngine : Engine := mkBareEngine 20 20 []

/-- A MULTISHOT power-up on the ship. -/
def multishotPowerUpAtCenter : PowerUp :=
  { weaponPowerUpAtCenter with type := .multishot }

/-- Engine already at the multi-shot cap holding a MULTISHOT pickup. -/
def c10Engine : Engine :=
  { mkBareEngine 800 600 [] with
      ship := { createShip 800 600 with multiShotLevel := 5 }
      powerUps := [multishotPowerUpAtCenter]
      score := 700 }

/-! ## Theorems -/

set_option maxRecDepth 1000000

lemma c1E4_reachable : Reachable c1E4 := by
  unfold c1E4 c1E3 c1E2 c1E1 c1E0
  exact .frame _ _ _ (by norm_num) (.frame _ _ _ (by norm_num)
    (.frame _ _ _ (by norm_num) (.frame _ _ _ (by norm_num) (.init _ _ _ _ _))))

lemma c1E4_lives : c1E4.ship.lives = -1 := by with_unfolding_all rfl

lemma c1E4_gameOver : isGameOver c1E4 = true := by with_unfolding_all rfl

/-- C1 is false of the code: a reachable four-frame run (one stalled frame of
23 s, then three of 4 s, with an asteroid drifting over the ship) hits the
ship on each frame because `handleShipCollision` decrements `lives` without a
lower bound while the loop keeps stepping after game-over, ending at
`lives = -1`; moreover `isGameOver` tests `lives <= 0`, not `lives == 0`. -/
theorem c1_counterexample : ¬ ClaimC1 := by
  intro h
  have h1 := (h c1E4 c1E4_reachable).1
  rw [c1E4_lives] at h1
  exact absurd h1 (by norm_num)

/-- C1 (amended): the game-over predicate returns true exactly when
`lives ≤ 0`, and `lives` can in fact drop below 0 on a reachable frame, since
ship-hit handling decrements it with no lower bound and the engine keeps
stepping after game-over. -/
theorem c1_amended :
    (∀ e : Engine, isGameOver e = true ↔ e.ship.lives ≤ 0) ∧
    ∃ e : Engine, Reachable e ∧ e.ship.lives < 0 := by
  refine ⟨fun e => ?_, c1E4, c1E4_reachable, by rw [c1E4_lives]; norm_num⟩
  simp [isGameOver]

/-- C2: what the code actually does on WEAPON pickups at t = 0 s and t = 5 s.
`collectPowerUp` stores no timeout handle and cancels nothing, so after the
second pickup two independent reverts are pending (deadlines 10 s and 15 s);
the first fires at wall-clock 10 s and already puts the basic weapon back —
5 s before the second pickup's 10-second window has elapsed — and the second
fires at 15 s, a second revert.  This contradicts the claimed single,
cancellable, timer-resetting revert. -/
theorem c2_stacked_reverts :
    wEngine2.ship.weapon = some createAdvancedWeapon ∧
    wEngine2.timers.map TimerEvt.fireAt = [10000, 15000] ∧
    wEngine3.ship.weapon = some createBasicWeapon ∧
    wEngine3.nowMs = 10000 ∧
    wEngine3.timers.map TimerEvt.fireAt = [15000] ∧
    wEngine4.ship.weapon = some createBasicWeapon ∧
    wEngine4.nowMs = 15000 := by
  refine ⟨?_, ?_, ?_, ?_, ?_, ?_, ?_⟩ <;> with_unfolding_all rfl

/-- C3: what the code's `dispose` actually does.  It removes the two key
listeners (so key events become no-ops), but the two pending weapon-revert
timeouts stay queued and later fire into the engine, and nothing stops the
frame loop: a frame step after `dispose` still advances the clock and
mutates state. -/
theorem c3_dispose_incomplete :
    disposedEngine.listeners = [] ∧
    handleKeyDownEvt .space disposedEngine = disposedEngine ∧
    disposedEngine.timers.map TimerEvt.fireAt = [10000, 15000] ∧
    (fireTimer 0 disposedEngine).ship.weapon = some createBasicWeapon ∧
    (frameStep 8 1 disposedEngine).nowMs = disposedEngine.nowMs + 1000 ∧
    (frameStep 8 1 disposedEngine).powerUpSpawnTime
      = disposedEngine.powerUpSpawnTime + 1 := by
  refine ⟨?_, ?_, ?_, ?_, ?_, ?_⟩ <;> with_unfolding_all rfl

lemma handleShipCollision_lives (e : Engine) :
    (handleShipCollision e).ship.lives = e.ship.lives - 1 := rfl

/-- C4 is false of the code: the invulnerable/shield guard is evaluated once
before both body-collision loops, so when the ship (sitting at the canvas
center, where `handleShipCollision` also resets it) overlaps an asteroid and
an enemy in the same frame, both loops trigger ship-hit handling and lives
drop by 2, not at most 1. -/
theorem c4_counterexample : ¬ ClaimC4 := by
  intro h
  have hc := h c4Engine rfl rfl (by with_unfolding_all rfl) (by with_unfolding_all rfl)
  have hl : (shipBodyCollisionPhase c4Engine).ship.lives = 1 := by with_unfolding_all rfl
  have hl0 : c4Engine.ship.lives = 3 := rfl
  rw [hl, hl0] at hc
  omega

/-- C4 (amended): body-collision resolution triggers ship-hit handling at
most once per category — the asteroid loop and the enemy loop each stop at
their first hit — so in every frame it decrements lives by at most 2 (and
never increments them). -/
theorem c4_amended :
    ∀ e : Engine,
      (shipBodyCollisionPhase e).ship.lives ≤ e.ship.lives ∧
      e.ship.lives - 2 ≤ (shipBodyCollisionPhase e).ship.lives := by
  intro e
  simp only [shipBodyCollisionPhase]
  split_ifs <;> first
    | omega
    | (simp only [handleShipCollision_lives]; omega)

/-- C5 is false of the code: `resize` rewrites the wrap bounds of the ship,
the asteroids and the enemies, but never touches the power-up list, so a
power-up spawned on an 800 × 600 canvas still wraps against 800 × 600 after
`resize(1024, 768)`. -/
theorem c5_counterexample : ¬ ClaimC5 := by
  intro h
  have hm : weaponPowerUpAtCenter ∈ (resize c5Engine 1024 768).powerUps := by
    with_unfolding_all decide
  have hw := ((h c5Engine 1024 768).2.2.2.2 weaponPowerUpAtCenter hm).1
  have h800 : weaponPowerUpAtCenter.canvasWidth = 800 := rfl
  rw [h800] at hw
  norm_num at hw

/-- C5 (amended): immediately after `resize(w, h)` the canvas, the ship and
every asteroid and enemy carry the new bounds, while the power-up list is
left exactly as it was (power-ups keep their spawn-time bounds). -/
theorem c5_amended :
    ∀ (e : Engine) (w h : ℚ),
      (resize e w h).canvasW = w ∧ (resize e w h).canvasH = h ∧
      (resize e w h).ship.canvasWidth = w ∧ (resize e w h).ship.canvasHeight = h ∧
      (∀ a ∈ (resize e w h).asteroids, a.canvasWidth = w ∧ a.canvasHeight = h) ∧
      (∀ en ∈ (resize e w h).enemies, en.canvasWidth = w ∧ en.canvasHeight = h) ∧
      (resize e w h).powerUps = e.powerUps := by
  intro e w h
  refine ⟨rfl, rfl, rfl, rfl, ?_, ?_, rfl⟩
  · intro a ha
    simp only [resize, List.mem_map] at ha
    obtain ⟨a0, _, rfl⟩ := ha
    exact ⟨rfl, rfl⟩
  · intro en hen
    simp only [resize, List.mem_map] at hen
    obtain ⟨en0, _, rfl⟩ := hen
    exact ⟨rfl, rfl⟩

/-- C5 witness: the amended statement evaluated on the concrete state. -/
theorem c5_amended_witness :
    (resize c5Engine 1024 768).powerUps = c5Engine.powerUps ∧
    c5AsteroidResized.canvasWidth = 1024 ∧ c5AsteroidResized.canvasHeight = 768 :=
  ⟨(c5_amended c5Engine 1024 768).2.2.2.2.2.2,
   (c5_amended c5Engine 1024 768).2.2.2.2.1 c5AsteroidResized (by with_unfolding_all decide)⟩

lemma wrapCoord_bounds (limit x : ℚ) (hl : 0 ≤ limit) :
    0 ≤ wrapCoord limit x ∧ wrapCoord limit x ≤ limit := by
  simp only [wrapCoord]
  split_ifs <;> constructor <;> linarith

lemma wrapBoxOut_bounds (limit size x : ℚ) (hl : 0 ≤ limit) (hs : 0 ≤ size) :
    -size ≤ wrapBoxOut limit size x ∧ wrapBoxOut limit size x ≤ limit + size := by
  simp only [wrapBoxOut]
  split_ifs <;> constructor <;> linarith

lemma wrapBoxIn_bounds (limit size x : ℚ) (hl : 0 ≤ limit) (hs : 0 ≤ size) :
    -size ≤ wrapBoxIn limit size x ∧ wrapBoxIn limit size x ≤ limit + size := by
  simp only [wrapBoxIn]
  split_ifs <;> constructor <;> linarith

lemma shipTimers_position (dt : ℚ) (s : Ship) : (shipTimers dt s).position = s.position := by
  simp only [shipTimers]
  split_ifs <;> rfl

lemma shipUpdate_position (H : Host) (dt : ℚ) (s : Ship) :
    (shipUpdate H dt s).position =
      ⟨wrapCoord s.canvasWidth (shipIntegrate H dt s).position.x,
       wrapCoord s.canvasHeight (shipIntegrate H dt s).position.y⟩ := by
  simp only [shipUpdate]
  rw [shipTimers_position]
  rfl

lemma enemyUpdate_position (H : Host) (dt : ℚ) (pp : Vec) (en : Enemy) (rng : List ℚ) :
    ∃ q : Vec, (enemyUpdate H dt pp en rng).1.position =
      ⟨wrapCoord en.canvasWidth q.x, wrapCoord en.canvasHeight q.y⟩ := by
  rcases hs : enemySteer H dt pp en rng with ⟨⟨rot, vel, ldc, tgt⟩, rng1⟩
  exact ⟨⟨en.position.x + vel.x, en.position.y + vel.y⟩, by simp [enemyUpdate, hs]⟩

/-- C6 is false of the code: asteroids (and power-ups) wrap to just outside
the canvas, not inside it.  An asteroid of size 20 whose center has passed
the right edge of an 800-wide canvas is relocated to `x = -20`, which lies
outside `[0, canvasWidth]`. -/
theorem c6_counterexample : ¬ ClaimC6 := by
  intro h
  have hb := h.2.2.1 1 c6Asteroid (by with_unfolding_all decide)
    (by with_unfolding_all decide) (by with_unfolding_all decide)
  simp only [inCanvas] at hb
  have hx : (asteroidUpdate 1 c6Asteroid).position.x = -20 := by with_unfolding_all rfl
  rw [hx] at hb
  have := hb.1
  norm_num at this

/-- C6 (amended): after their update's wrap stage, ships and enemies lie in
`[0, canvasWidth] × [0, canvasHeight]` (center-crossing wrap), while
asteroids and power-ups lie in the margin-extended box
`[-size, canvasWidth + size] × [-size, canvasHeight + size]` (bounding-box
wrap relocates them just outside the opposite edge). -/
theorem c6_amended :
    (∀ (H : Host) (dt : ℚ) (s : Ship), 0 ≤ s.canvasWidth → 0 ≤ s.canvasHeight →
        inCanvas s.canvasWidth s.canvasHeight (shipUpdate H dt s).position) ∧
    (∀ (H : Host) (dt : ℚ) (pp : Vec) (en : Enemy) (rng : List ℚ),
        0 ≤ en.canvasWidth → 0 ≤ en.canvasHeight →
        inCanvas en.canvasWidth en.canvasHeight (enemyUpdate H dt pp en rng).1.position) ∧
    (∀ (dt : ℚ) (a : Asteroid), 0 ≤ a.canvasWidth → 0 ≤ a.canvasHeight → 0 ≤ a.size →
        -a.size ≤ (asteroidUpdate dt a).position.x ∧
        (asteroidUpdate dt a).position.x ≤ a.canvasWidth + a.size ∧
        -a.size ≤ (asteroidUpdate dt a).position.y ∧
        (asteroidUpdate dt a).position.y ≤ a.canvasHeight + a.size) ∧
    (∀ (dt : ℚ) (pu : PowerUp), 0 ≤ pu.canvasWidth → 0 ≤ pu.canvasHeight → 0 ≤ pu.size →
        -pu.size ≤ (powerUpUpdate dt pu).position.x ∧
        (powerUpUpdate dt pu).position.x ≤ pu.canvasWidth + pu.size ∧
        -pu.size ≤ (powerUpUpdate dt pu).position.y ∧
        (powerUpUpdate dt pu).position.y ≤ pu.canvasHeight + pu.size) := by
  refine ⟨fun H dt s hw hh => ?_, fun H dt pp en rng hw hh => ?_,
          fun dt a hw hh hs => ?_, fun dt pu hw hh hs => ?_⟩
  · rw [inCanvas, shipUpdate_position]
    exact ⟨(wrapCoord_bounds _ _ hw).1, (wrapCoord_bounds _ _ hw).2,
           (wrapCoord_bounds _ _ hh).1, (wrapCoord_bounds _ _ hh).2⟩
  · obtain ⟨q, hq⟩ := enemyUpdate_position H dt pp en rng
    rw [inCanvas, hq]
    exact ⟨(wrapCoord_bounds _ _ hw).1, (wrapCoord_bounds _ _ hw).2,
           (wrapCoord_bounds _ _ hh).1, (wrapCoord_bounds _ _ hh).2⟩
  · have hx := wrapBoxOut_bounds a.canvasWidth a.size (a.position.x + a.velocity.x * dt) hw hs
    have hy := wrapBoxOut_bounds a.canvasHeight a.size (a.position.y + a.velocity.y * dt) hh hs
    exact ⟨hx.1, hx.2, hy.1, hy.2⟩
  · have hx := wrapBoxIn_bounds pu.canvasWidth pu.size (pu.position.x + pu.velocity.x * dt) hw hs
    have hy := wrapBoxIn_bounds pu.canvasHeight pu.size (pu.position.y + pu.velocity.y * dt) hh hs
    exact ⟨hx.1, hx.2, hy.1, hy.2⟩

/-- C6 witness: the amended bounds evaluated on the concrete asteroid that
wraps to `x = -20`. -/
theorem c6_amended_witness :
    -(20 : ℚ) ≤ (asteroidUpdate 1 c6Asteroid).position.x ∧
    (asteroidUpdate 1 c6Asteroid).position.x ≤ 820 := by
  have h := c6_amended.2.2.1 1 c6Asteroid (by with_unfolding_all decide)
    (by with_unfolding_all decide) (by with_unfolding_all decide)
  have hcw : c6Asteroid.canvasWidth + c6Asteroid.size = 820 := by with_unfolding_all rfl
  have hsz : c6Asteroid.size = 20 := rfl
  rw [hcw, hsz] at h
  exact ⟨h.1, h.2.1⟩

lemma takeRand_eq (e : Engine) :
    takeRand e = (e.rng.headD (1/2), { e with rng := e.rng.tail }) := by
  cases h : e.rng with
  | nil =>
      simp only [takeRand, h, List.headD_nil, List.tail_nil]
      rw [← h]
  | cons r rs => simp only [takeRand, h]; rfl

lemma sampleAwayFromShip_score (safe : ℚ) :
    ∀ (n : ℕ) (e : Engine), (sampleAwayFromShip safe n e).2.score = e.score := by
  intro n
  induction n with
  | zero => intro e; rfl
  | succ k ih =>
    intro e
    simp only [sampleAwayFromShip, takeRand_eq]
    split
    · exact (ih _).trans rfl
    · rfl

lemma generateAsteroidOne_score (fuel : ℕ) (e : Engine) :
    (generateAsteroidOne fuel e).score = e.score := by
  have h0 := sampleAwayFromShip_score 100 fuel e
  simp only [generateAsteroidOne]
  rcases hs : sampleAwayFromShip 100 fuel e with ⟨p, e1⟩
  rw [hs] at h0
  cases p with
  | none => exact h0
  | some q => simp only [takeRand_eq]; exact h0

lemma generateAsteroids_score :
    ∀ (c fuel : ℕ) (e : Engine), (generateAsteroids c fuel e).score = e.score := by
  intro c
  induction c with
  | zero => intro fuel e; rfl
  | succ k ih =>
    intro fuel e
    simp only [generateAsteroids]
    exact (ih fuel _).trans (generateAsteroidOne_score fuel e)

lemma generateEnemyOne_score (fuel : ℕ) (e : Engine) :
    (generateEnemyOne fuel e).score = e.score := by
  have h0 := sampleAwayFromShip_score 200 fuel e
  simp only [generateEnemyOne]
  rcases hs : sampleAwayFromShip 200 fuel e with ⟨p, e1⟩
  rw [hs] at h0
  cases p with
  | none => exact h0
  | some q => simp only [takeRand_eq]; exact h0

lemma generateEnemies_score :
    ∀ (c fuel : ℕ) (e : Engine), (generateEnemies c fuel e).score = e.score := by
  intro c
  induction c with
  | zero => intro fuel e; rfl
  | succ k ih =>
    intro fuel e
    simp only [generateEnemies]
    exact (ih fuel _).trans (generateEnemyOne_score fuel e)

lemma generatePowerUp_score :
    ∀ (n : ℕ) (e : Engine), (generatePowerUp n e).score = e.score := by
  intro n
  induction n with
  | zero => intro e; rfl
  | succ k ih =>
    intro e
    simp only [generatePowerUp, takeRand_eq]
    split
    · exact (ih _).trans rfl
    · rfl

/-- C7: destruction accounting of `checkCollisions`.  Weapon profiles deal 1
(basic) and 2 (advanced) damage.  A bullet hit on the single overlapped
asteroid deactivates the bullet and subtracts its damage; the asteroid
survives with reduced health and unchanged score exactly when the result is
positive (so a health-2 asteroid takes two basic hits or one advanced hit),
and is removed with exactly 100 points exactly when the result is ≤ 0.
Enemy hits behave the same with 250 points. -/
theorem c7_destruction_accounting :
    createBasicWeapon.bulletDamage = 1 ∧ createAdvancedWeapon.bulletDamage = 2 ∧
    (∀ (sf : ℕ) (e : Engine) (b : Bullet) (a : Asteroid),
      e.bullets = [b] → e.asteroids = [a] → b.active = true → b.fromEnemy = false →
      distLt a.position b.position (b.size + a.size) = true →
      (0 < a.health - b.damage →
        bulletAsteroidPhase sf e =
          { e with bullets := [deactivate b]
                   asteroids := [{ a with health := a.health - b.damage }] }) ∧
      (a.health - b.damage ≤ 0 →
        (bulletAsteroidPhase sf e).score = e.score + 100)) ∧
    (∀ (sf : ℕ) (e : Engine) (b : Bullet) (en : Enemy),
      e.bullets = [b] → e.enemies = [en] → b.active = true → b.fromEnemy = false →
      distLt en.position b.position (b.size + en.size) = true →
      (0 < en.health - b.damage →
        bulletEnemyPhase sf e =
          { e with bullets := [deactivate b]
                   enemies := [{ en with health := en.health - b.damage }] }) ∧
      (en.health - b.damage ≤ 0 →
        (bulletEnemyPhase sf e).score = e.score + 250)) := by
  refine ⟨rfl, rfl, ?_, ?_⟩
  · intro sf e b a hb ha hact hfe hov
    have hlen : e.bullets.length = 1 := by rw [hb]; rfl
    constructor
    · intro hsur
      have hns : ¬ (a.health - b.damage ≤ 0) := by omega
      simp only [bulletAsteroidPhase, hlen, bulletLoop, hb]
      norm_num
      simp only [bulletAsteroidStep, hb, ha, hact, hfe, hov, hns, List.getElem?_cons_zero,
        List.findIdx?_cons, List.set_cons_zero, Bool.not_true, Bool.false_or, if_false,
        reduceIte]
      simp
    · intro hdes
      simp only [bulletAsteroidPhase, hlen, bulletLoop, hb]
      norm_num
      simp only [bulletAsteroidStep, hb, ha, hact, hfe, hov, hdes, List.getElem?_cons_zero,
        List.findIdx?_cons, List.set_cons_zero, Bool.not_true, Bool.false_or, if_false,
        reduceIte, List.eraseIdx, takeRand_eq]
      simp only [Bool.false_eq_true, if_false]
      split <;> split <;>
        simp [generateAsteroids_score, generatePowerUp_score]
  · intro sf e b en hb he hact hfe hov
    have hlen : e.bullets.length = 1 := by rw [hb]; rfl
    constructor
    · intro hsur
      have hns : ¬ (en.health - b.damage ≤ 0) := by omega
      simp only [bulletEnemyPhase, hlen, bulletLoop, hb]
      norm_num
      simp only [bulletEnemyStep, hb, he, hact, hfe, hov, hns, List.getElem?_cons_zero,
        List.findIdx?_cons, List.set_cons_zero, Bool.not_true, Bool.false_or, if_false,
        reduceIte]
      simp
    · intro hdes
      simp only [bulletEnemyPhase, hlen, bulletLoop, hb]
      norm_num
      simp only [bulletEnemyStep, hb, he, hact, hfe, hov, hdes, List.getElem?_cons_zero,
        List.findIdx?_cons, List.set_cons_zero, Bool.not_true, Bool.false_or, if_false,
        reduceIte, List.eraseIdx, takeRand_eq]
      simp only [Bool.false_eq_true, if_false]
      split <;> split <;>
        simp [generateEnemies_score, generatePowerUp_score]

/-- C7 witness: a basic bullet leaves the health-2 asteroid alive at health 1
with no score, and an advanced bullet destroys the health-2 enemy for exactly
250 points. -/
theorem c7_witness :
    (bulletAsteroidPhase 4 c7AstEngine).asteroids =
      [{ c4Asteroid with position := ⟨402, 300⟩, health := 1 }] ∧
    (bulletAsteroidPhase 4 c7AstEngine).score = 0 ∧
    (bulletEnemyPhase 4 c7EnemyEngine).score = 250 := by
  have hA := (c7_destruction_accounting.2.2.1 4 c7AstEngine c7Bullet
      { c4Asteroid with position := ⟨402, 300⟩ } rfl rfl rfl rfl
      (by with_unfolding_all rfl)).1 (by with_unfolding_all decide)
  have hB := (c7_destruction_accounting.2.2.2 4 c7EnemyEngine c7BulletAdvanced
      { c4Enemy with position := ⟨405, 300⟩ } rfl rfl rfl rfl
      (by with_unfolding_all rfl)).2 (by with_unfolding_all decide)
  refine ⟨?_, ?_, ?_⟩
  · rw [hA]; with_unfolding_all rfl
  · rw [hA]; rfl
  · rw [hB]; rfl

lemma shipBulletAt_fst (H : Host) (w : Weapon) (nowMs : ℚ) (s : Ship) (angle : ℚ) :
    (shipBulletAt H w nowMs s angle).1 = { w with lastFireTime := nowMs } := rfl

lemma shipBulletAt_snd_stamp (H : Host) (w : Weapon) (t nowMs : ℚ) (s : Ship) (angle : ℚ) :
    (shipBulletAt H { w with lastFireTime := t } nowMs s angle).2 =
      (shipBulletAt H w nowMs s angle).2 := rfl

/-- C8: with multi-shot level 2 and the cooldown open, one `fireWeapon` call
appends exactly 3 bullets — the primary along the ship's rotation plus two
spread shots at ∓π/12 (15°) — and every one of these shots carries the
active weapon's `bulletDamage` and a velocity of magnitude `bulletSpeed`
along its own angle. -/
theorem c8_multishot_triple :
    ∀ (e : Engine) (w : Weapon),
      e.ship.weapon = some w →
      w.canFire e.nowMs = true →
      e.ship.multiShotLevel = 2 →
      (fireWeapon e).bullets =
        e.bullets ++
          [(shipBulletAt e.host w e.nowMs e.ship e.ship.rotation).2,
           (shipBulletAt e.host w e.nowMs e.ship (e.ship.rotation - piQ / 12)).2,
           (shipBulletAt e.host w e.nowMs e.ship (e.ship.rotation + piQ / 12)).2] ∧
      (fireWeapon e).bullets.length = e.bullets.length + 3 ∧
      (∀ angle : ℚ,
        (shipBulletAt e.host w e.nowMs e.ship angle).2.damage = w.bulletDamage ∧
        (shipBulletAt e.host w e.nowMs e.ship angle).2.velocity =
          ⟨e.host.cos angle * w.bulletSpeed, e.host.sin angle * w.bulletSpeed⟩) := by
  intro e w hw hcf hms
  have hne1 : e.ship.multiShotLevel ≠ 1 := by omega
  have hlist : (fireWeapon e).bullets =
      e.bullets ++
        [(shipBulletAt e.host w e.nowMs e.ship e.ship.rotation).2,
         (shipBulletAt e.host w e.nowMs e.ship (e.ship.rotation - piQ / 12)).2,
         (shipBulletAt e.host w e.nowMs e.ship (e.ship.rotation + piQ / 12)).2] := by
    simp only [fireWeapon, hw, hcf, if_true, multiShotAngles, hms, hne1]
    norm_num [List.foldl, shipBulletAt_fst, shipBulletAt_snd_stamp]
  refine ⟨hlist, ?_, fun angle => ⟨rfl, rfl⟩⟩
  rw [hlist]
  simp

/-- C8 witness: the concrete level-2 engine fires exactly 3 bullets. -/
theorem c8_witness : (fireWeapon c8Engine).bullets.length = 3 := by
  have h := (c8_multishot_triple c8Engine createBasicWeapon rfl
    (by with_unfolding_all rfl) rfl).2.1
  simpa [c8Engine, mkBareEngine] using h

lemma generatePowerUp_small_step (k : ℕ) :
    generatePowerUp (k + 1) smallEngine = generatePowerUp k smallEngine := by
  with_unfolding_all rfl

lemma sampleAwayFromShip_small_step (k : ℕ) :
    sampleAwayFromShip 100 (k + 1) smallEngine = sampleAwayFromShip 100 k smallEngine := by
  with_unfolding_all rfl

/-- C9: the spawn-position rejection sampling of the code has no retry bound
and no accept-anyway fallback.  On a 20 × 20 canvas whose every point lies
within the 100-unit safe radius of the centered ship, `generatePowerUp`
rejects and resamples forever (no fuel value ever spawns a power-up), and the
shared asteroid/enemy rejection loop never accepts a sample. -/
theorem c9_unbounded_rejection :
    (∀ n : ℕ, (generatePowerUp n smallEngine).powerUps = []) ∧
    (∀ n : ℕ, (sampleAwayFromShip 100 n smallEngine).1 = none) := by
  constructor
  · intro n
    induction n with
    | zero => rfl
    | succ k ih => rw [generatePowerUp_small_step]; exact ih
  · intro n
    induction n with
    | zero => rfl
    | succ k ih => rw [sampleAwayFromShip_small_step]; exact ih

/-- C10: collecting a MULTISHOT power-up while the ship already sits at
level 5 changes nothing except deactivating the power-up: the level stays 5,
no 50·level bonus is added, and the pickup is consumed. -/
theorem c10_multishot_capped :
    ∀ (e : Engine) (j : ℕ) (pu : PowerUp),
      e.powerUps[j]? = some pu →
      pu.type = PowerUpType.multishot →
      e.ship.multiShotLevel = 5 →
      collectPowerUp e j =
        { e with powerUps := e.powerUps.set j { pu with active := false } } ∧
      (collectPowerUp e j).ship = e.ship ∧
      (collectPowerUp e j).score = e.score := by
  intro e j pu hj ht hl
  have hmain : collectPowerUp e j =
      { e with powerUps := e.powerUps.set j { pu with active := false } } := by
    simp only [collectPowerUp, hj, ht, hl]
    norm_num
  exact ⟨hmain, by rw [hmain], by rw [hmain]⟩

/-- C10 witness: the capped pickup evaluated on a concrete state. -/
theorem c10_witness :
    collectPowerUp c10Engine 0 =
      { c10Engine with powerUps := [{ multishotPowerUpAtCenter with active := false }] } ∧
    (collectPowerUp c10Engine 0).ship.multiShotLevel = 5 ∧
    (collectPowerUp c10Engine 0).score = 700 := by
  have h := c10_multishot_capped c10Engine 0 multishotPowerUpAtCenter
    (by with_unfolding_all rfl) rfl rfl
  refine ⟨?_, ?_, ?_⟩
  · rw [h.1]; with_unfolding_all rfl
  · rw [h.2.1]; rfl
  · rw [h.2.2]; rfl
